import Mathlib

/-!
Verification development for the jobly model layer: the partial-update SQL
builder (`helpers/sql.js`), the filter-clause assembly inside
`Company.findAll` / `Job.findAll`, and the get/update operations of
`models/company.js` and `models/job.js`.

Modelling conventions (JavaScript semantics made explicit):
- a JS object, in property-insertion order, is an association list
  `List (String × _)`;
- scalar values that flow into a query's parameter list are `DBValue`;
- JS truthiness for the values appearing here: `undefined` (modelled as
  `Option.none`), the empty string, `0` and `false` are falsy, everything
  else is truthy;
- a thrown `BadRequestError` / `NotFoundError`, and the unhandled runtime
  `TypeError` from reading a property of `undefined`, are `Except.error`;
- `db.query` round trips are counted, or recorded as a trace of
  (sql, parameters) pairs, so that "number of storage accesses" is a
  provable quantity.
-/

/-- A scalar value sent to the database driver in a parameter list. -/
inductive DBValue where
  | str (s : String)
  | int (n : Int)
  deriving Repr, DecidableEq

/-- Errors surfaced by the model layer: `BadRequestError` and
`NotFoundError` from `expressError.js`, and `typeError` for the unhandled
JS runtime `TypeError` raised by reading a property of `undefined`. -/
inductive Err where
  | badRequestError (msg : String)
  | notFoundError (msg : String)
  | typeError
  deriving Repr, DecidableEq

/-- JS property lookup with falsy fallback, `obj[key] || key`: an absent
property (`undefined`) and an empty-string property value both fall back
to `key`. -/
def jsObjGetOr (obj : List (String × String)) (key : String) : String :=
  match obj.find? (fun p => p.1 == key) with
  | some p => if p.2 == "" then key else p.2
  | none => key

/-- The `cols` array of `sqlForPartialUpdate` (helpers/sql.js):
`keys.map((colName, idx) => "<resolved>"=$<idx+1>)`. -/
def updateColsOf (keys : List String) (jsToSql : List (String × String)) : List String :=
  keys.mapIdx (fun idx colName =>
    "\"" ++ jsObjGetOr jsToSql colName ++ "\"=$" ++ toString (idx + 1))

/-- Shallow embedding of `sqlForPartialUpdate(dataToUpdate, jsToSql)` from
helpers/sql.js.  `dataToUpdate` is the JS object as an association list in
iteration order; `Object.keys` / `Object.values` are the two projections,
which share that order.  Throwing `BadRequestError("No data")` is
`Except.error`; `cols.join(", ")` is `String.intercalate ", "`. -/
def sqlForPartialUpdate (dataToUpdate : List (String × DBValue))
    (jsToSql : List (String × String)) : Except Err (String × List DBValue) :=
  let keys := dataToUpdate.map Prod.fst
  if keys.length = 0 then
    .error (.badRequestError "No data")
  else
    let cols := updateColsOf keys jsToSql
    .ok (String.intercalate ", " cols, dataToUpdate.map Prod.snd)

lemma updateColsOf_length (keys : List String) (jsToSql : List (String × String)) :
    (updateColsOf keys jsToSql).length = keys.length := by
  simp [updateColsOf]

lemma updateColsOf_lookup (keys : List String) (jsToSql : List (String × String))
    (i : Nat) (k : String) (hk : keys[i]? = some k) :
    (updateColsOf keys jsToSql)[i]? =
      some ("\"" ++ jsObjGetOr jsToSql k ++ "\"=$" ++ toString (i + 1)) := by
  have hi : i < keys.length := (List.getElem?_eq_some.mp hk).1
  have hkk : keys[i] = k := (List.getElem?_eq_some.mp hk).2
  have hlen : i < (updateColsOf keys jsToSql).length := by
    rw [updateColsOf_length]
    exact hi
  rw [List.getElem?_eq_getElem hlen]
  simp only [updateColsOf]
  have hmap := List.get_mapIdx keys
    (fun idx colName => "\"" ++ jsObjGetOr jsToSql colName ++ "\"=$" ++ toString (idx + 1)) i hi
  simp only [List.get_eq_getElem] at hmap
  rw [hmap, hkk]

lemma sqlForPartialUpdate_ok (dataToUpdate : List (String × DBValue))
    (jsToSql : List (String × String)) (h : dataToUpdate ≠ []) :
    sqlForPartialUpdate dataToUpdate jsToSql =
      .ok (String.intercalate ", " (updateColsOf (dataToUpdate.map Prod.fst) jsToSql),
           dataToUpdate.map Prod.snd) := by
  have hlen : ¬ (dataToUpdate.map Prod.fst).length = 0 := by
    simp [h]
  simp [sqlForPartialUpdate, hlen, h]

/-- C1: for every non-empty update mapping and every field-name map,
`sqlForPartialUpdate` succeeds; its clause is the comma-join of one
fragment per key, the fragment at (0-based) position `i` being
`"<column>"=$<i+1>`; and its value list is the mapping's values in the
same order, so placeholder `i + 1` corresponds to the value at index `i`. -/
theorem sqlForPartialUpdate_alignment (dataToUpdate : List (String × DBValue))
    (jsToSql : List (String × String)) (hne : dataToUpdate ≠ []) :
    sqlForPartialUpdate dataToUpdate jsToSql =
      .ok (String.intercalate ", " (updateColsOf (dataToUpdate.map Prod.fst) jsToSql),
           dataToUpdate.map Prod.snd) ∧
    (updateColsOf (dataToUpdate.map Prod.fst) jsToSql).length = dataToUpdate.length ∧
    (∀ i k v, dataToUpdate[i]? = some (k, v) →
      (updateColsOf (dataToUpdate.map Prod.fst) jsToSql)[i]? =
          some ("\"" ++ jsObjGetOr jsToSql k ++ "\"=$" ++ toString (i + 1)) ∧
      (dataToUpdate.map Prod.snd)[i]? = some v) := by
  refine ⟨sqlForPartialUpdate_ok dataToUpdate jsToSql hne, ?_, ?_⟩
  · rw [updateColsOf_length, List.length_map]
  · intro i k v hkv
    constructor
    · refine updateColsOf_lookup (dataToUpdate.map Prod.fst) jsToSql i k ?_
      simp [List.getElem?_map, hkv]
    · simp [List.getElem?_map, hkv]

/-- Witness for `sqlForPartialUpdate_alignment` at the concrete input
`{first: "x", second: 2}` with map `{second: "second_col"}`. -/
theorem sqlForPartialUpdate_alignment_witness :
    sqlForPartialUpdate [("first", DBValue.str "x"), ("second", DBValue.int 2)]
        [("second", "second_col")] =
      .ok (String.intercalate ", "
            (updateColsOf (([("first", DBValue.str "x"),
                ("second", DBValue.int 2)] : List (String × DBValue)).map Prod.fst)
              [("second", "second_col")]),
           ([("first", DBValue.str "x"), ("second", DBValue.int 2)] :
              List (String × DBValue)).map Prod.snd) :=
  (sqlForPartialUpdate_alignment [("first", DBValue.str "x"), ("second", DBValue.int 2)]
    [("second", "second_col")] (by decide)).1

/-- C2: with an empty update mapping `sqlForPartialUpdate` fails with
`BadRequestError("No data")` (the code's `ValidationError`), whatever the
field-name map; with a non-empty mapping it never fails. -/
theorem sqlForPartialUpdate_empty_fails :
    (∀ jsToSql, sqlForPartialUpdate [] jsToSql = .error (.badRequestError "No data")) ∧
    (∀ dataToUpdate jsToSql, dataToUpdate ≠ [] →
      ∀ e, sqlForPartialUpdate dataToUpdate jsToSql ≠ .error e) := by
  constructor
  · intro jsToSql
    rfl
  · intro dataToUpdate jsToSql h e
    rw [sqlForPartialUpdate_ok dataToUpdate jsToSql h]
    exact fun hc => Except.noConfusion hc

/-- Witness for `sqlForPartialUpdate_empty_fails`: the empty mapping fails,
and the singleton mapping `{a: "b"}` does not fail with the same error. -/
theorem sqlForPartialUpdate_empty_fails_witness :
    sqlForPartialUpdate [] [] = .error (.badRequestError "No data") ∧
    sqlForPartialUpdate [("a", DBValue.str "b")] [] ≠
      .error (.badRequestError "No data") :=
  ⟨sqlForPartialUpdate_empty_fails.1 [],
   sqlForPartialUpdate_empty_fails.2 [("a", DBValue.str "b")] [] (by decide) _⟩

/-- C3 counterexample: the key `"a"` is present in the field-name map,
mapped to the empty string, yet the code emits the key itself (the JS
falsy fallback `jsToSql[colName] || colName` also fires on a present but
empty mapped name), not the mapped name. -/
theorem columnResolution_empty_mapped_name :
    sqlForPartialUpdate [("a", DBValue.str "v")] [("a", "")] =
      .ok ("\"a\"=$1", [DBValue.str "v"]) ∧
    ("\"a\"=$1" : String) ≠ "\"\"=$1" := by
  constructor
  · rfl
  · decide

/-- C3 amended: a key present in the field-name map with a non-empty mapped
name resolves to the mapped name; a key absent from the map, or mapped to
the empty string, resolves to the key itself; and the fragment in position
`i` of the clause uses exactly that resolved column name. -/
theorem columnResolution_amended :
    (∀ jsToSql key, jsToSql.find? (fun p => p.1 == key) = none →
      jsObjGetOr jsToSql key = key) ∧
    (∀ jsToSql key p, jsToSql.find? (fun p' => p'.1 == key) = some p →
      p.2 ≠ "" → jsObjGetOr jsToSql key = p.2) ∧
    (∀ jsToSql key p, jsToSql.find? (fun p' => p'.1 == key) = some p →
      p.2 = "" → jsObjGetOr jsToSql key = key) ∧
    (∀ (dataToUpdate : List (String × DBValue)) jsToSql i k v,
      dataToUpdate ≠ [] → dataToUpdate[i]? = some (k, v) →
      (updateColsOf (dataToUpdate.map Prod.fst) jsToSql)[i]? =
        some ("\"" ++ jsObjGetOr jsToSql k ++ "\"=$" ++ toString (i + 1))) := by
  refine ⟨?_, ?_, ?_, ?_⟩
  · intro jsToSql key hnone
    simp [jsObjGetOr, hnone]
  · intro jsToSql key p hsome hne
    have : (p.2 == "") = false := by
      simpa using hne
    simp [jsObjGetOr, hsome, this]
  · intro jsToSql key p hsome he
    simp [jsObjGetOr, hsome, he]
  · intro dataToUpdate jsToSql i k v _ hkv
    refine updateColsOf_lookup (dataToUpdate.map Prod.fst) jsToSql i k ?_
    simp [List.getElem?_map, hkv]

/-- Witness for `columnResolution_amended` at concrete inputs: an absent
key, a key mapped to a non-empty name, a key mapped to the empty string,
and the fragment of a one-key mapping. -/
theorem columnResolution_amended_witness :
    jsObjGetOr [] "k" = "k" ∧
    jsObjGetOr [("k", "col")] "k" = "col" ∧
    jsObjGetOr [("k", "")] "k" = "k" ∧
    (updateColsOf (([("k", DBValue.int 1)] : List (String × DBValue)).map Prod.fst)
        [("k", "col")])[0]? = some ("\"" ++ jsObjGetOr [("k", "col")] "k" ++ "\"=$" ++ toString 1) :=
  ⟨columnResolution_amended.1 [] "k" (by decide),
   columnResolution_amended.2.1 [("k", "col")] "k" ("k", "col") (by decide) (by decide),
   columnResolution_amended.2.2.1 [("k", "")] "k" ("k", "") (by decide) (by decide),
   columnResolution_amended.2.2.2 [("k", DBValue.int 1)] [("k", "col")] 0 "k"
     (DBValue.int 1) (by decide) (by decide)⟩

/-! ## Filter-clause assembly (`Company.findAll`, `Job.findAll`) -/

/-- JS truthiness of an optional string: `undefined` and `""` are falsy. -/
def truthyStr : Option String → Bool
  | none => false
  | some s => !(s == "")

/-- JS truthiness of an optional integer: `undefined` and `0` are falsy. -/
def truthyInt : Option Int → Bool
  | none => false
  | some n => !(n == 0)

/-- JS truthiness of an optional boolean: `undefined` and `false` are falsy. -/
def truthyBool : Option Bool → Bool
  | none => false
  | some b => b

/-- JS `s.slice(0, -5)` for the one-byte-per-character strings built here:
drop the last five characters. -/
def jsSliceNeg5 (s : String) : String :=
  String.mk (s.data.take (s.data.length - 5))

/-- The message of the range-consistency `BadRequestError` in
`Company.findAll`. -/
def companyRangeMsg : String :=
  "The minimum number of employees cannot be greater than the maximum number of employees"

/-- Shallow embedding of the filter-clause assembly of `Company.findAll`
(models/company.js): the bounds validation, then the three filter sections
mutating `filterClause` and `values` (each push uses `values.length` as
its placeholder number), then the `WHERE` prefix with `slice(0, -5)`
removing the trailing `" AND "`.  The surrounding SELECT skeleton and the
result rows are independent of the filter logic and are not modelled. -/
def companyFindAllFilter (name : Option String) (minEmployees maxEmployees : Option Int) :
    Except Err (String × List DBValue) :=
  if truthyInt minEmployees && truthyInt maxEmployees
      && decide (minEmployees.getD 0 > maxEmployees.getD 0) then
    .error (.badRequestError companyRangeMsg)
  else
    let filterClause := ""
    let values : List DBValue := []
    let (filterClause, values) :=
      if truthyStr name then
        let values := values ++ [DBValue.str ("%" ++ name.getD "" ++ "%")]
        (filterClause ++ "LOWER(name) LIKE LOWER($" ++ toString values.length ++ ") AND ",
         values)
      else (filterClause, values)
    let (filterClause, values) :=
      if truthyInt minEmployees then
        let values := values ++ [DBValue.int (minEmployees.getD 0)]
        (filterClause ++ "num_employees >= $" ++ toString values.length ++ " AND ", values)
      else (filterClause, values)
    let (filterClause, values) :=
      if truthyInt maxEmployees then
        let values := values ++ [DBValue.int (maxEmployees.getD 0)]
        (filterClause ++ "num_employees <= $" ++ toString values.length ++ " AND ", values)
      else (filterClause, values)
    let filterClause :=
      if filterClause.length > 0 then "WHERE " ++ jsSliceNeg5 filterClause else filterClause
    .ok (filterClause, values)

/-- Shallow embedding of the filter-clause assembly of `Job.findAll`
(models/job.js).  This one performs no validation and never throws; the
`hasEquity` section appends a literal fragment without pushing a value. -/
def jobFindAllFilter (title : Option String) (minSalary : Option Int)
    (hasEquity : Option Bool) : String × List DBValue :=
  let filterClause := ""
  let values : List DBValue := []
  let (filterClause, values) :=
    if truthyStr title then
      let values := values ++ [DBValue.str ("%" ++ title.getD "" ++ "%")]
      (filterClause ++ "LOWER(title) LIKE LOWER($" ++ toString values.length ++ ") AND ",
       values)
    else (filterClause, values)
  let (filterClause, values) :=
    if truthyInt minSalary then
      let values := values ++ [DBValue.int (minSalary.getD 0)]
      (filterClause ++ "salary >= $" ++ toString values.length ++ " AND ", values)
    else (filterClause, values)
  let filterClause :=
    if truthyBool hasEquity then filterClause ++ "equity > 0 AND " else filterClause
  let filterClause :=
    if filterClause.length > 0 then "WHERE " ++ jsSliceNeg5 filterClause else filterClause
  (filterClause, values)

/-- A predicate fragment of a filter clause: the parameterized kinds used
by the two assemblers, plus the literal (non-parameterized) strictly
positive test. -/
inductive Frag where
  | like (col : String) (pattern : String)
  | ge (col : String) (bound : Int)
  | le (col : String) (bound : Int)
  | gtZeroLit (col : String)
  deriving Repr, DecidableEq

/-- Renders an ordered list of predicate fragments, numbering the
parameterized ones with a single running placeholder counter starting
after `n` and collecting their values in the same order; the literal
fragment consumes no placeholder and pushes no value. -/
def renderPreds : List Frag → Nat → List String × List DBValue
  | [], _ => ([], [])
  | Frag.like col pat :: rest, n =>
    let r := renderPreds rest (n + 1)
    (("LOWER(" ++ col ++ ") LIKE LOWER($" ++ toString (n + 1) ++ ")") :: r.1,
     DBValue.str pat :: r.2)
  | Frag.ge col b :: rest, n =>
    let r := renderPreds rest (n + 1)
    ((col ++ " >= $" ++ toString (n + 1)) :: r.1, DBValue.int b :: r.2)
  | Frag.le col b :: rest, n =>
    let r := renderPreds rest (n + 1)
    ((col ++ " <= $" ++ toString (n + 1)) :: r.1, DBValue.int b :: r.2)
  | Frag.gtZeroLit col :: rest, n =>
    let r := renderPreds rest n
    ((col ++ " > 0") :: r.1, r.2)

/-- The `WHERE` clause for a list of rendered fragments: empty when there
is no fragment, otherwise the fragments joined by `" AND "`, after the
`WHERE` keyword, with no trailing connective. -/
def whereClause (fragments : List String) : String :=
  if fragments.isEmpty then "" else "WHERE " ++ String.intercalate " AND " fragments

/-- The active predicate fragments of `Company.findAll`, in the fixed
order the code processes them: text match, lower bound, upper bound. -/
def companyFrags (name : Option String) (minEmployees maxEmployees : Option Int) :
    List Frag :=
  (if truthyStr name then [Frag.like "name" ("%" ++ name.getD "" ++ "%")] else []) ++
  (if truthyInt minEmployees then [Frag.ge "num_employees" (minEmployees.getD 0)] else []) ++
  (if truthyInt maxEmployees then [Frag.le "num_employees" (maxEmployees.getD 0)] else [])

/-- The active predicate fragments of `Job.findAll`, in the fixed order
the code processes them: text match, lower bound, boolean presence (a
literal fragment). -/
def jobFrags (title : Option String) (minSalary : Option Int) (hasEquity : Option Bool) :
    List Frag :=
  (if truthyStr title then [Frag.like "title" ("%" ++ title.getD "" ++ "%")] else []) ++
  (if truthyInt minSalary then [Frag.ge "salary" (minSalary.getD 0)] else []) ++
  (if truthyBool hasEquity then [Frag.gtZeroLit "equity"] else [])

example :
    companyFindAllFilter (some "a") (some 1) none =
      .ok ("WHERE LOWER(name) LIKE LOWER($1) AND num_employees >= $2",
           [DBValue.str "%a%", DBValue.int 1]) := by rfl

example :
    jobFindAllFilter (some "a") (some 1) (some true) =
      ("WHERE LOWER(title) LIKE LOWER($1) AND salary >= $2 AND equity > 0",
       [DBValue.str "%a%", DBValue.int 1]) := by rfl

example : companyFindAllFilter none (some 5) (some 0) =
    .ok ("WHERE num_employees >= $1", [DBValue.int 5]) := by rfl

example : companyFindAllFilter (some "") none none = .ok ("", []) := by rfl

example : companyFindAllFilter (some "") (some 2) (some 3) =
    companyFindAllFilter none (some 2) (some 3) := by rfl

lemma jobFilter_eq_render (title : Option String) (minSalary : Option Int)
    (hasEquity : Option Bool) :
    jobFindAllFilter title minSalary hasEquity =
      (whereClause (renderPreds (jobFrags title minSalary hasEquity) 0).1,
       (renderPreds (jobFrags title minSalary hasEquity) 0).2) := by
  cases hn : truthyStr title <;> cases hm : truthyInt minSalary <;>
    cases he : truthyBool hasEquity <;>
    simp [jobFindAllFilter, jobFrags, renderPreds, whereClause, hn, hm, he] <;> decide

lemma companyFilter_eq_render (name : Option String) (minE maxE : Option Int) :
    companyFindAllFilter name minE maxE = .error (.badRequestError companyRangeMsg) ∨
    companyFindAllFilter name minE maxE =
      .ok (whereClause (renderPreds (companyFrags name minE maxE) 0).1,
           (renderPreds (companyFrags name minE maxE) 0).2) := by
  cases hm : truthyInt minE with
  | true =>
    cases hx : truthyInt maxE with
    | true =>
      by_cases hgt : minE.getD 0 > maxE.getD 0
      · left
        simp [companyFindAllFilter, hm, hx, hgt]
      · right
        cases hn : truthyStr name <;>
          simp [companyFindAllFilter, companyFrags, renderPreds, whereClause,
            hn, hm, hx, hgt] <;> decide
    | false =>
      right
      cases hn : truthyStr name <;>
        simp [companyFindAllFilter, companyFrags, renderPreds, whereClause,
          hn, hm, hx] <;> decide
  | false =>
    right
    cases hx : truthyInt maxE <;> cases hn : truthyStr name <;>
      simp [companyFindAllFilter, companyFrags, renderPreds, whereClause,
        hn, hm, hx] <;> decide

/-- C5: each assembler processes its active filters in the fixed order
text match, then lower bound, then upper bound (`Company.findAll`) /
then boolean presence (`Job.findAll`): the output is exactly the rendering
of the ordered fragment list, parameterized placeholders numbered by one
running counter and fragments joined with " AND " with no trailing
connective; in particular text match "a" with lower bound 1 yields
exactly two ANDed fragments with placeholders $1, $2 and values
["%a%", 1] in that order. -/
theorem filterClause_fixed_order :
    (∀ name minE maxE,
      companyFindAllFilter name minE maxE = .error (.badRequestError companyRangeMsg) ∨
      companyFindAllFilter name minE maxE =
        .ok (whereClause (renderPreds (companyFrags name minE maxE) 0).1,
             (renderPreds (companyFrags name minE maxE) 0).2)) ∧
    (∀ title minSalary hasEquity,
      jobFindAllFilter title minSalary hasEquity =
        (whereClause (renderPreds (jobFrags title minSalary hasEquity) 0).1,
         (renderPreds (jobFrags title minSalary hasEquity) 0).2)) ∧
    companyFindAllFilter (some "a") (some 1) none =
      .ok ("WHERE LOWER(name) LIKE LOWER($1) AND num_employees >= $2",
           [DBValue.str "%a%", DBValue.int 1]) ∧
    jobFindAllFilter (some "a") (some 1) none =
      ("WHERE LOWER(title) LIKE LOWER($1) AND salary >= $2",
       [DBValue.str "%a%", DBValue.int 1]) :=
  ⟨companyFilter_eq_render, jobFilter_eq_render, rfl, rfl⟩

/-- C4 counterexample: both bounds are supplied and the lower bound 5
exceeds the upper bound 0, yet `Company.findAll` raises no error and
emits the lower-bound predicate: a zero bound is falsy in JS, so the
range-consistency check is skipped. -/
theorem companyRange_zero_bound_no_error :
    companyFindAllFilter none (some 5) (some 0) =
      .ok ("WHERE num_employees >= $1", [DBValue.int 5]) ∧ (5 : Int) > 0 :=
  ⟨rfl, by decide⟩

/-- C4 amended: when both bounds are supplied, non-zero (truthy) and the
lower bound exceeds the upper bound, `Company.findAll` fails with
`BadRequestError` (the `ValidationError`) whatever the text filter is —
the check precedes every predicate fragment; in particular bounds 10 and
5 always fail. -/
theorem companyRange_check (name : Option String) (minV maxV : Int)
    (hmin : minV ≠ 0) (hmax : maxV ≠ 0) (hgt : minV > maxV) :
    companyFindAllFilter name (some minV) (some maxV) =
      .error (.badRequestError companyRangeMsg) := by
  have hm : truthyInt (some minV) = true := by simp [truthyInt, hmin]
  have hx : truthyInt (some maxV) = true := by simp [truthyInt, hmax]
  simp [companyFindAllFilter, hm, hx, hgt]

/-- Witness for `companyRange_check`: min 10 and max 5 with a text filter. -/
theorem companyRange_check_witness :
    companyFindAllFilter (some "a") (some 10) (some 5) =
      .error (.badRequestError companyRangeMsg) :=
  companyRange_check (some "a") 10 5 (by decide) (by decide) (by decide)

lemma renderPreds_append_lit (fs : List Frag) (c : String) (n : Nat) :
    (renderPreds (fs ++ [Frag.gtZeroLit c]) n).2 = (renderPreds fs n).2 ∧
    (renderPreds (fs ++ [Frag.gtZeroLit c]) n).1 =
      (renderPreds fs n).1 ++ [c ++ " > 0"] := by
  induction fs generalizing n with
  | nil => simp [renderPreds]
  | cons f rest ih => cases f <;> simp [renderPreds, ih]

/-- C6: a truthy `hasEquity` appends the literal fragment `equity > 0`
and pushes no value (the value list equals the one of the same filter
spec without the flag), and in every combination with the parameterized
predicates the placeholder numbers remain the 1-based positions of the
corresponding values. -/
theorem hasEquity_literal_alignment :
    (∀ title minSalary,
      (jobFindAllFilter title minSalary (some true)).2 =
        (jobFindAllFilter title minSalary none).2) ∧
    (∀ (t : String) (m : Int), t ≠ "" → m ≠ 0 →
      jobFindAllFilter (some t) (some m) (some true) =
        ("WHERE LOWER(title) LIKE LOWER($1) AND salary >= $2 AND equity > 0",
         [DBValue.str ("%" ++ t ++ "%"), DBValue.int m])) ∧
    (∀ (m : Int), m ≠ 0 →
      jobFindAllFilter none (some m) (some true) =
        ("WHERE salary >= $1 AND equity > 0", [DBValue.int m])) ∧
    (∀ (t : String), t ≠ "" →
      jobFindAllFilter (some t) none (some true) =
        ("WHERE LOWER(title) LIKE LOWER($1) AND equity > 0",
         [DBValue.str ("%" ++ t ++ "%")])) ∧
    jobFindAllFilter none none (some true) = ("WHERE equity > 0", []) := by
  refine ⟨?_, ?_, ?_, ?_, ?_⟩
  · intro title minSalary
    rw [jobFilter_eq_render, jobFilter_eq_render]
    have hfr : jobFrags title minSalary (some true) =
        jobFrags title minSalary none ++ [Frag.gtZeroLit "equity"] := by
      simp [jobFrags, truthyBool]
    rw [hfr]
    exact (renderPreds_append_lit (jobFrags title minSalary none) "equity" 0).1
  · intro t m ht hm
    have hn : truthyStr (some t) = true := by simp [truthyStr, ht]
    have hs : truthyInt (some m) = true := by simp [truthyInt, hm]
    simp [jobFindAllFilter, hn, hs, truthyBool]
    decide
  · intro m hm
    have hs : truthyInt (some m) = true := by simp [truthyInt, hm]
    simp [jobFindAllFilter, hs, truthyStr, truthyBool]
    decide
  · intro t ht
    have hn : truthyStr (some t) = true := by simp [truthyStr, ht]
    simp [jobFindAllFilter, hn, truthyInt, truthyBool]
    decide
  · rfl

/-- Witness for `hasEquity_literal_alignment` at title "a", salary 2. -/
theorem hasEquity_literal_alignment_witness :
    jobFindAllFilter (some "a") (some 2) (some true) =
      ("WHERE LOWER(title) LIKE LOWER($1) AND salary >= $2 AND equity > 0",
       [DBValue.str ("%" ++ "a" ++ "%"), DBValue.int 2]) :=
  hasEquity_literal_alignment.2.1 "a" 2 (by decide) (by decide)

/-- C9: a falsy filter value is treated exactly as an absent one — an
empty text match, a zero bound or a false presence flag leaves the
output unchanged from `none`; with a zero bound the range-consistency
check of `Company.findAll` is skipped, so min 3 with max 0 raises no
error and emits no upper-bound predicate. -/
theorem falsy_filters_ignored :
    (∀ minE maxE, companyFindAllFilter (some "") minE maxE =
      companyFindAllFilter none minE maxE) ∧
    (∀ name maxE, companyFindAllFilter name (some 0) maxE =
      companyFindAllFilter name none maxE) ∧
    (∀ name minE, companyFindAllFilter name minE (some 0) =
      companyFindAllFilter name minE none) ∧
    (∀ minSalary hasEquity, jobFindAllFilter (some "") minSalary hasEquity =
      jobFindAllFilter none minSalary hasEquity) ∧
    (∀ title hasEquity, jobFindAllFilter title (some 0) hasEquity =
      jobFindAllFilter title none hasEquity) ∧
    (∀ title minSalary, jobFindAllFilter title minSalary (some false) =
      jobFindAllFilter title minSalary none) ∧
    companyFindAllFilter none (some 3) (some 0) =
      .ok ("WHERE num_employees >= $1", [DBValue.int 3]) ∧
    (3 : Int) > 0 :=
  ⟨fun _ _ => rfl, fun _ _ => rfl, fun _ _ => rfl, fun _ _ => rfl,
   fun _ _ => rfl, fun _ _ => rfl, rfl, by decide⟩

/-! ## Entity access layer (`models/company.js`, `models/job.js`) -/

/-- A row of the `companies` table, in the column shape the model layer
selects (`num_employees AS "numEmployees"`, `logo_url AS "logoUrl"`). -/
structure CompanyRow where
  handle : String
  name : String
  description : String
  numEmployees : Int
  logoUrl : String
  deriving Repr, DecidableEq

/-- A row of the `jobs` table, in the column shape the model layer selects
(`company_handle AS "companyHandle"`); `equity` is a string because the
driver returns `NUMERIC` columns as strings (see the test fixtures). -/
structure JobRow where
  id : Int
  title : String
  salary : Int
  equity : String
  companyHandle : String
  deriving Repr, DecidableEq

/-- The job shape selected by `Company.get`'s related-collection query,
`SELECT id, title, salary, equity FROM jobs WHERE company_handle = $1`. -/
structure JobSummary where
  id : Int
  title : String
  salary : Int
  equity : String
  deriving Repr, DecidableEq

/-- The record returned by `Company.get`: the company row with the nested
`jobs` collection attached. -/
structure CompanyWithJobs where
  handle : String
  name : String
  description : String
  numEmployees : Int
  logoUrl : String
  jobs : List JobSummary
  deriving Repr, DecidableEq

/-- The database contents read by the two models. -/
structure DBState where
  companies : List CompanyRow
  jobs : List JobRow
  deriving Repr, DecidableEq

/-- Model of executing `SELECT ... FROM companies WHERE handle = $1`:
the rows whose handle equals the parameter, in table order. -/
def selectCompanies (st : DBState) (handle : String) : List CompanyRow :=
  st.companies.filter (fun c => c.handle == handle)

/-- Model of executing `SELECT ... FROM jobs WHERE id = $1`. -/
def selectJobsById (st : DBState) (id : Int) : List JobRow :=
  st.jobs.filter (fun j => j.id == id)

/-- Model of executing `SELECT ... FROM jobs WHERE company_handle = $1`. -/
def selectJobsByCompany (st : DBState) (handle : String) : List JobRow :=
  st.jobs.filter (fun j => j.companyHandle == handle)

/-- Shallow embedding of `Company.get(handle)` (models/company.js),
paired with the number of `db.query` round trips performed.  The second
query's rows become the nested `jobs` collection
(`company.jobs = jobsRes.rows`). -/
def companyGet (st : DBState) (handle : String) : Except Err CompanyWithJobs × Nat :=
  let companyRows := selectCompanies st handle
  match companyRows.head? with
  | none => (.error (.notFoundError ("No company: " ++ handle)), 1)
  | some c =>
    let jobRows := selectJobsByCompany st handle
    (.ok { handle := c.handle, name := c.name, description := c.description,
           numEmployees := c.numEmployees, logoUrl := c.logoUrl,
           jobs := jobRows.map (fun j =>
             { id := j.id, title := j.title, salary := j.salary,
               equity := j.equity }) }, 2)

/-- Shallow embedding of `Job.get(id)` (models/job.js), paired with the
round-trip count.  After the second query the code runs
`job.companyHandle = companyRes.rows[0].handle`: when the related company
row is missing, reading `.handle` of `undefined` is the unhandled runtime
`TypeError`; when it exists, the assignment rewrites `companyHandle` with
the fetched handle and the job row is returned — no nested collection is
attached. -/
def jobGet (st : DBState) (id : Int) : Except Err JobRow × Nat :=
  let jobRows := selectJobsById st id
  match jobRows.head? with
  | none => (.error (.notFoundError ("No job: " ++ toString id)), 1)
  | some job =>
    let companyRows := selectCompanies st job.companyHandle
    match companyRows.head? with
    | none => (.error .typeError, 2)
    | some c => (.ok { job with companyHandle := c.handle }, 2)

/-- The field-name map `Job.update` passes to `sqlForPartialUpdate`
(the empty object). -/
def jobJsToSql : List (String × String) := []

/-- The field-name map `Company.update` passes to `sqlForPartialUpdate`. -/
def companyJsToSql : List (String × String) :=
  [("numEmployees", "num_employees"), ("logoUrl", "logo_url")]

/-- Semantic effect of the generated `SET` clause on one `jobs` row: each
update pair is applied through its resolved column name.  Pairs whose
column is not an updatable `jobs` column of the matching type are outside
this model (the database would reject the statement) and leave the row
unchanged. -/
def applyJobSet (r : JobRow) (data : List (String × DBValue)) : JobRow :=
  data.foldl (fun r kv =>
    match jsObjGetOr jobJsToSql kv.1, kv.2 with
    | "title", DBValue.str s => { r with title := s }
    | "salary", DBValue.int n => { r with salary := n }
    | "equity", DBValue.str s => { r with equity := s }
    | _, _ => r) r

/-- Semantic effect of the generated `SET` clause on one `companies` row. -/
def applyCompanySet (r : CompanyRow) (data : List (String × DBValue)) : CompanyRow :=
  data.foldl (fun r kv =>
    match jsObjGetOr companyJsToSql kv.1, kv.2 with
    | "name", DBValue.str s => { r with name := s }
    | "description", DBValue.str s => { r with description := s }
    | "num_employees", DBValue.int n => { r with numEmployees := n }
    | "logo_url", DBValue.str s => { r with logoUrl := s }
    | _, _ => r) r

/-- The text of `Job.update`'s statement template before `setCols`. -/
def jobUpdateSqlPre : String := "UPDATE jobs \n                      SET "

/-- The template text between `setCols` and the WHERE placeholder. -/
def jobUpdateSqlMid : String := " \n                      WHERE id = "

/-- The template text after the WHERE placeholder. -/
def jobUpdateSqlPost : String :=
  " \n                      RETURNING id, \n                                title, \n                                salary,\n                                equity, \n                                company_handle AS \"companyHandle\""

/-- The text of `Company.update`'s statement template before `setCols`. -/
def companyUpdateSqlPre : String := "UPDATE companies \n                      SET "

/-- The template text between `setCols` and the WHERE placeholder. -/
def companyUpdateSqlMid : String := " \n                      WHERE handle = "

/-- The template text after the WHERE placeholder. -/
def companyUpdateSqlPost : String :=
  " \n                      RETURNING handle, \n                                name, \n                                description, \n                                num_employees AS \"numEmployees\", \n                                logo_url AS \"logoUrl\""

/-- Shallow embedding of `Job.update(id, data)` (models/job.js), paired
with the trace of issued (statement, parameters) queries.
`sqlForPartialUpdate` runs first, so its `BadRequestError` propagates
with no query issued; otherwise the single UPDATE binds the id as
placeholder `values.length + 1`, appended as the last parameter, and the
rows the statement returns are modelled by applying the SET pairs to
every matching row. -/
def jobUpdate (st : DBState) (id : Int) (data : List (String × DBValue)) :
    Except Err JobRow × List (String × List DBValue) :=
  match sqlForPartialUpdate data jobJsToSql with
  | .error e => (.error e, [])
  | .ok (setCols, values) =>
    let idVarIdx := "$" ++ toString (values.length + 1)
    let querySql :=
      jobUpdateSqlPre ++ setCols ++ jobUpdateSqlMid ++ idVarIdx ++ jobUpdateSqlPost
    let params := values ++ [DBValue.int id]
    let resultRows := (selectJobsById st id).map (fun r => applyJobSet r data)
    match resultRows.head? with
    | none => (.error (.notFoundError ("No job: " ++ toString id)), [(querySql, params)])
    | some job => (.ok job, [(querySql, params)])

/-- Shallow embedding of `Company.update(handle, data)`
(models/company.js), paired with the trace of issued queries; same shape
as `jobUpdate` with the company field-name map and the handle bound as
the last parameter. -/
def companyUpdate (st : DBState) (handle : String) (data : List (String × DBValue)) :
    Except Err CompanyRow × List (String × List DBValue) :=
  match sqlForPartialUpdate data companyJsToSql with
  | .error e => (.error e, [])
  | .ok (setCols, values) =>
    let handleVarIdx := "$" ++ toString (values.length + 1)
    let querySql :=
      companyUpdateSqlPre ++ setCols ++ companyUpdateSqlMid ++ handleVarIdx ++
        companyUpdateSqlPost
    let params := values ++ [DBValue.str handle]
    let resultRows := (selectCompanies st handle).map (fun r => applyCompanySet r data)
    match resultRows.head? with
    | none => (.error (.notFoundError ("No company: " ++ handle)), [(querySql, params)])
    | some c => (.ok c, [(querySql, params)])

lemma filter_cons_pred {α : Type} (p : α → Bool) (l : List α) (c : α) (rest : List α)
    (h : l.filter p = c :: rest) : p c = true := by
  have hm : c ∈ l.filter p := by
    rw [h]
    exact List.mem_cons_self c rest
  exact (List.mem_filter.mp hm).2

/-- C7: `Job.update` and `Company.update` delegate clause construction
entirely to `sqlForPartialUpdate`; with an empty payload they fail with
`BadRequestError` ("No data") before any storage access (empty query
trace); with a non-empty payload they issue exactly one UPDATE whose
WHERE condition binds the identifier to the placeholder numbered one past
the last assignment placeholder, the identifier appended as the last
parameter; the result is the updated record, or `NotFoundError` when no
row matches the identifier. -/
theorem updateDelegation :
    (∀ st id, jobUpdate st id [] = (.error (.badRequestError "No data"), [])) ∧
    (∀ st h, companyUpdate st h [] = (.error (.badRequestError "No data"), [])) ∧
    (∀ st id data, data ≠ [] →
      (jobUpdate st id data).2 =
        [(jobUpdateSqlPre ++
            String.intercalate ", " (updateColsOf (data.map Prod.fst) jobJsToSql) ++
            jobUpdateSqlMid ++ ("$" ++ toString ((data.map Prod.snd).length + 1)) ++
            jobUpdateSqlPost,
          data.map Prod.snd ++ [DBValue.int id])]) ∧
    (∀ st h data, data ≠ [] →
      (companyUpdate st h data).2 =
        [(companyUpdateSqlPre ++
            String.intercalate ", " (updateColsOf (data.map Prod.fst) companyJsToSql) ++
            companyUpdateSqlMid ++ ("$" ++ toString ((data.map Prod.snd).length + 1)) ++
            companyUpdateSqlPost,
          data.map Prod.snd ++ [DBValue.str h])]) ∧
    (∀ st id data, data ≠ [] → selectJobsById st id = [] →
      (jobUpdate st id data).1 = .error (.notFoundError ("No job: " ++ toString id))) ∧
    (∀ st id data j rest, data ≠ [] → selectJobsById st id = j :: rest →
      (jobUpdate st id data).1 = .ok (applyJobSet j data)) ∧
    (∀ st h data, data ≠ [] → selectCompanies st h = [] →
      (companyUpdate st h data).1 = .error (.notFoundError ("No company: " ++ h))) ∧
    (∀ st h data c rest, data ≠ [] → selectCompanies st h = c :: rest →
      (companyUpdate st h data).1 = .ok (applyCompanySet c data)) := by
  refine ⟨fun st id => rfl, fun st h => rfl, ?_, ?_, ?_, ?_, ?_, ?_⟩
  · intro st id data h
    cases hrows : ((selectJobsById st id).map (fun r => applyJobSet r data)).head? <;>
      simp [jobUpdate, sqlForPartialUpdate_ok data jobJsToSql h, hrows]
  · intro st h data hne
    cases hrows : ((selectCompanies st h).map (fun r => applyCompanySet r data)).head? <;>
      simp [companyUpdate, sqlForPartialUpdate_ok data companyJsToSql hne, hrows]
  · intro st id data hne hfilter
    simp [jobUpdate, sqlForPartialUpdate_ok data jobJsToSql hne, hfilter]
  · intro st id data j rest hne hfilter
    simp [jobUpdate, sqlForPartialUpdate_ok data jobJsToSql hne, hfilter]
  · intro st h data hne hfilter
    simp [companyUpdate, sqlForPartialUpdate_ok data companyJsToSql hne, hfilter]
  · intro st h data c rest hne hfilter
    simp [companyUpdate, sqlForPartialUpdate_ok data companyJsToSql hne, hfilter]

/-- Witness for `updateDelegation`: the empty payload fails with no query
issued, and a one-field update of an existing job returns the updated
record. -/
theorem updateDelegation_witness :
    jobUpdate ⟨[], []⟩ 1 [] = (.error (.badRequestError "No data"), []) ∧
    (jobUpdate ⟨[], [⟨1, "t", 5, "0", "c"⟩]⟩ 1 [("title", DBValue.str "x")]).1 =
      .ok (applyJobSet ⟨1, "t", 5, "0", "c"⟩ [("title", DBValue.str "x")]) :=
  ⟨updateDelegation.1 ⟨[], []⟩ 1,
   updateDelegation.2.2.2.2.2.1 ⟨[], [⟨1, "t", 5, "0", "c"⟩]⟩ 1
     [("title", DBValue.str "x")] ⟨1, "t", 5, "0", "c"⟩ [] (by decide) (by decide)⟩

/-- C8 counterexample: in a database whose only job row (id 1) references
a company that exists, `Job.get` succeeds but returns the stored job row
itself — a record of five scalar fields with no nested related
collection attached; and when the referenced company row is missing,
`Job.get` neither returns a record nor fails with `NotFoundError`, even
though a job row matches the id. -/
theorem jobGet_no_nested_collection :
    jobGet ⟨[⟨"c1", "C1", "d", 3, "u"⟩], [⟨1, "j1", 100, "0", "c1"⟩]⟩ 1 =
      (.ok ⟨1, "j1", 100, "0", "c1"⟩, 2) ∧
    selectJobsById ⟨[], [⟨1, "j1", 100, "0", "c1"⟩]⟩ 1 = [⟨1, "j1", 100, "0", "c1"⟩] ∧
    jobGet ⟨[], [⟨1, "j1", 100, "0", "c1"⟩]⟩ 1 = (.error Err.typeError, 2) := by
  refine ⟨rfl, by decide, rfl⟩

/-- C8 amended: `Company.get` returns the company with the nested `jobs`
collection attached, or fails with `NotFoundError` when no row matches,
in exactly two round trips on success (one on failure).  `Job.get` also
performs one primary and one related lookup and fails with
`NotFoundError` when no job row matches, but on success — which further
requires the referenced company row to exist — it returns the job row
unchanged: the related company data is fetched and discarded and no
nested collection is attached. -/
theorem getRoundTrips :
    (∀ st h, selectCompanies st h = [] →
      companyGet st h = (.error (.notFoundError ("No company: " ++ h)), 1)) ∧
    (∀ st h c rest, selectCompanies st h = c :: rest →
      companyGet st h =
        (.ok { handle := c.handle, name := c.name, description := c.description,
               numEmployees := c.numEmployees, logoUrl := c.logoUrl,
               jobs := (selectJobsByCompany st h).map (fun j =>
                 { id := j.id, title := j.title, salary := j.salary,
                   equity := j.equity }) }, 2)) ∧
    (∀ st id, selectJobsById st id = [] →
      jobGet st id = (.error (.notFoundError ("No job: " ++ toString id)), 1)) ∧
    (∀ st id j rest c crest, selectJobsById st id = j :: rest →
      selectCompanies st j.companyHandle = c :: crest →
      jobGet st id = (.ok j, 2)) := by
  refine ⟨?_, ?_, ?_, ?_⟩
  · intro st h hfilter
    simp [companyGet, hfilter]
  · intro st h c rest hfilter
    simp [companyGet, selectJobsByCompany, hfilter]
  · intro st id hfilter
    simp [jobGet, hfilter]
  · intro st id j rest c crest hj hc
    have hhandle : c.handle = j.companyHandle := by
      have hc' : List.filter (fun x => x.handle == j.companyHandle) st.companies =
          c :: crest := hc
      have := filter_cons_pred (fun x => x.handle == j.companyHandle) st.companies c crest hc'
      exact eq_of_beq this
    simp [jobGet, hj, hc, hhandle]

/-- Witness for `getRoundTrips`: a one-company, one-job database, where
`Company.get` nests the job and `Job.get` returns the bare job row. -/
theorem getRoundTrips_witness :
    companyGet ⟨[⟨"c2", "C2", "d2", 4, "u2"⟩], [⟨3, "j3", 9, "0", "c2"⟩]⟩ "c2" =
      (.ok { handle := "c2", name := "C2", description := "d2",
             numEmployees := 4, logoUrl := "u2",
             jobs := (selectJobsByCompany
                 ⟨[⟨"c2", "C2", "d2", 4, "u2"⟩], [⟨3, "j3", 9, "0", "c2"⟩]⟩ "c2").map
               (fun j => { id := j.id, title := j.title, salary := j.salary,
                           equity := j.equity }) }, 2) ∧
    jobGet ⟨[⟨"c2", "C2", "d2", 4, "u2"⟩], [⟨3, "j3", 9, "0", "c2"⟩]⟩ 3 =
      (.ok ⟨3, "j3", 9, "0", "c2"⟩, 2) :=
  ⟨getRoundTrips.2.1 ⟨[⟨"c2", "C2", "d2", 4, "u2"⟩], [⟨3, "j3", 9, "0", "c2"⟩]⟩ "c2"
     ⟨"c2", "C2", "d2", 4, "u2"⟩ [] (by decide),
   getRoundTrips.2.2.2 ⟨[⟨"c2", "C2", "d2", 4, "u2"⟩], [⟨3, "j3", 9, "0", "c2"⟩]⟩ 3
     ⟨3, "j3", 9, "0", "c2"⟩ [] ⟨"c2", "C2", "d2", 4, "u2"⟩ [] (by decide) (by decide)⟩

/-- C10: when a job row matches the id but no company row matches its
`companyHandle`, `Job.get` reads the first row of the company lookup
without a guard and fails with the unhandled runtime `TypeError` — which
is not a `NotFoundError` — after both round trips. -/
theorem jobGet_unguarded_company_read (st : DBState) (id : Int) (j : JobRow)
    (rest : List JobRow) (hj : selectJobsById st id = j :: rest)
    (hc : selectCompanies st j.companyHandle = []) :
    jobGet st id = (.error Err.typeError, 2) ∧
    (∀ msg, Err.typeError ≠ Err.notFoundError msg) := by
  constructor
  · simp [jobGet, hj, hc]
  · intro msg hcontra
    exact Err.noConfusion hcontra

/-- Witness for `jobGet_unguarded_company_read`: a job row whose
`companyHandle` references no company. -/
theorem jobGet_unguarded_company_read_witness :
    jobGet ⟨[], [⟨2, "j2", 7, "0.1", "nope"⟩]⟩ 2 = (.error Err.typeError, 2) ∧
    (∀ msg, Err.typeError ≠ Err.notFoundError msg) :=
  jobGet_unguarded_company_read ⟨[], [⟨2, "j2", 7, "0.1", "nope"⟩]⟩ 2
    ⟨2, "j2", 7, "0.1", "nope"⟩ [] (by decide) (by decide)
